import Mathlib

/-!
Shallow embedding of the presentation-layer components of the zap-desktop
repository (src/app/components/Pay/Pay.js and src/app/components/Wallet/Wallet.js),
together with theorems settling the frozen claims about them.

The `Pay` component is a multi-step payment form whose local state holds the
active wizard step, the previous step, the classification flags `isLn` /
`isOnchain` and the decoded invoice.  The `Wallet` component is a stateless
balance dashboard.  The crypto utilities (`isLn`, `isOnchain`, `decodePayReq`,
`getMinFee`, `getMaxFee`, `getFeeRange`, `convert`, `satoshisToFiat`) are
imported from lib/utils, which is outside the provided source tree; they are
modelled as opaque function parameters, except for the fee helpers, which the
spec describes precisely enough to model directly.
-/

namespace ZapDesktop

/-- A decoded Lightning invoice.  The component reads only the `payeeNodeKey`
and `satoshis` fields of the object returned by `decodePayReq`, so only those
are modelled. -/
structure Invoice where
  payeeNodeKey : String
  satoshis : Int
  deriving DecidableEq

/-- The local component state of `Pay` (Pay.js lines 138-143, plus the
`invoice` field written by `handlePayReqChange`).  In the source `isLn` and
`isOnchain` are only ever `null` or `true`; `null` is modelled as `false`
(both are falsy), and the `previousStep` field's `null` as `none`. -/
structure PayState where
  currentStep : String
  previousStep : Option String
  isLn : Bool
  isOnchain : Bool
  invoice : Option Invoice
  deriving DecidableEq

/-- The initial component state (Pay.js lines 138-143): step `address`,
no previous step, both classification flags unset, no invoice. -/
def Pay.initialState : PayState :=
  { currentStep := "address"
    previousStep := none
    isLn := false
    isOnchain := false
    invoice := none }

/-- A route entry as consumed by the fee helpers: only its `total_fees`
field is relevant. -/
structure Route where
  totalFees : Int
  deriving DecidableEq

/-- The onchain fee schedule prop (`onchainFees`).  It defaults to the empty
object, so `fastestFee` may be absent. -/
structure OnchainFees where
  fastestFee : Option Int
  deriving DecidableEq

/-- The props of `Pay` that the modelled logic reads. -/
structure PayProps where
  chain : String
  network : String
  channelBalance : Int
  cryptoCurrency : String
  initialPayReq : Option String
  isProcessing : Bool
  isQueryingRoutes : Bool
  onchainFees : OnchainFees
  routes : List Route
  walletBalance : Int
  deriving DecidableEq

/-- The form values read by the submit handler and the render body. -/
structure FormValues where
  payReq : String
  amountCrypto : ℚ
  deriving DecidableEq

/-- The relevant part of the form state exposed by the form API. -/
structure FormState where
  values : FormValues
  pristine : Bool
  invalid : Bool
  deriving DecidableEq

/-- The crypto utilities imported from lib/utils/crypto (outside the provided
source tree): the two classifiers and the invoice decoder.  `decodePayReq`
throws on a malformed invoice, modelled by returning `none`. -/
structure CryptoUtils where
  isLn : String → String → String → Bool
  isOnchain : String → String → String → Bool
  decodePayReq : String → Option Invoice

/-- Modelled from the spec: `getMinFee` of lib/utils/crypto is not under
src/; the spec describes the fee helpers as "array min/max over a route
list", with a null bound when no route is available.  Minimum of the routes'
total fees, `none` on an empty list. -/
def getMinFee (routes : List Route) : Option Int :=
  match routes with
  | [] => none
  | r :: rest => some ((rest.map Route.totalFees).foldl min r.totalFees)

/-- Modelled from the spec: `getMaxFee` of lib/utils/crypto is not under
src/; maximum of the routes' total fees, `none` on an empty list. -/
def getMaxFee (routes : List Route) : Option Int :=
  match routes with
  | [] => none
  | r :: rest => some ((rest.map Route.totalFees).foldl max r.totalFees)

/-- The fee range returned by `getFeeRange`. -/
structure FeeRange where
  min : Option Int
  max : Option Int
  deriving DecidableEq

/-- Modelled from the spec: `getFeeRange` of lib/utils/crypto is not under
src/; it pairs the minimum and maximum fee over the route list. -/
def getFeeRange (routes : List Route) : FeeRange :=
  { min := getMinFee routes, max := getMaxFee routes }

/-- `handlePayReqChange` (Pay.js lines 270-298): rebuild the classification
state from the `payReq` field.  The update template sets `isLn`, `isOnchain`
and `invoice` to null; if the classifier recognises a Lightning request the
invoice is decoded (an exception aborts the handler before `setState`, so the
state is left untouched) and `isLn` is set; otherwise, if the on-chain
classifier accepts, `isOnchain` is set; the accumulated template is then
merged into the state. -/
def Pay.handlePayReqChange (u : CryptoUtils) (p : PayProps) (payReq : String)
    (s : PayState) : PayState :=
  if u.isLn payReq p.chain p.network then
    match u.decodePayReq payReq with
    | none => s
    | some invoice =>
        { s with isLn := true, isOnchain := false, invoice := some invoice }
  else if u.isOnchain payReq p.chain p.network then
    { s with isLn := false, isOnchain := true, invoice := none }
  else
    { s with isLn := false, isOnchain := false, invoice := none }

/-- Modelled from the spec: a concrete instantiation of the crypto utilities,
used to evaluate the component's behaviour on closed inputs.  The glossary
describes `payReq` as "either an on-chain address or a Lightning invoice";
this instance recognises two sample Lightning requests (one of which fails to
decode) and one sample on-chain address, and rejects everything else — in
particular the empty field, which the real classifiers also reject. -/
def specCryptoUtils : CryptoUtils :=
  { isLn := fun payReq _chain _network =>
      payReq == "lnGoodInvoice" || payReq == "lnBadInvoice"
    isOnchain := fun payReq _chain _network => payReq == "addrSample"
    decodePayReq := fun payReq =>
      if payReq == "lnGoodInvoice" then
        some { payeeNodeKey := "nodeKeySample", satoshis := 1500 }
      else none }

/-- Sample props used to evaluate theorems on closed inputs. -/
def sampleProps : PayProps :=
  { chain := "bitcoin"
    network := "mainnet"
    channelBalance := 100000
    cryptoCurrency := "btc"
    initialPayReq := none
    isProcessing := false
    isQueryingRoutes := false
    onchainFees := { fastestFee := some 8 }
    routes := [{ totalFees := 10 }, { totalFees := 3 }]
    walletBalance := 250000 }

/-- A JavaScript value as it occurs in the step-transition guards: either the
string held in `currentStep` or the numeric index computed for the target
step.  Needed because `previousStep` / `nextStep` compare the two with
strict inequality. -/
inductive JsVal where
  | str : String → JsVal
  | num : Int → JsVal
  deriving DecidableEq

/-- JavaScript strict equality on the modelled values: values of different
types are never strictly equal. -/
def jsStrictEq : JsVal → JsVal → Bool
  | .str a, .str b => a == b
  | .num a, .num b => a == b
  | _, _ => false

/-- JavaScript `Array.prototype.indexOf` on a list of strings: the index of
the first occurrence, `-1` when the element is absent. -/
def jsIndexOf (l : List String) (x : String) : Int :=
  match l with
  | [] => -1
  | a :: rest =>
      if a == x then 0
      else
        let r := jsIndexOf rest x
        if r == -1 then -1 else r + 1

/-- `steps` (Pay.js lines 234-243): the list of enabled form steps, derived
from the classification flags. -/
def Pay.steps (s : PayState) : List String :=
  if s.isLn then ["address", "summary"]
  else if s.isOnchain then ["address", "amount", "summary"]
  else ["address"]

/-- `previousStep` (Pay.js lines 248-254): move to the previous enabled step.
The target index is the clamped `indexOf` of the current step minus one; the
guard strictly compares the string `currentStep` with that numeric index, so
it always holds and the state update is applied unconditionally. -/
def Pay.previousStep (s : PayState) : PayState :=
  let steps := Pay.steps s
  let nextStep : Int := max (jsIndexOf steps s.currentStep - 1) 0
  if jsStrictEq (.str s.currentStep) (.num nextStep) then s
  else
    { s with
      currentStep := steps.getD nextStep.toNat ""
      previousStep := some s.currentStep }

/-- `nextStep` (Pay.js lines 259-265): move to the next enabled step.  The
target index is the `indexOf` of the current step plus one, clamped to the
last index; the guard strictly compares the string `currentStep` with that
numeric index, so it always holds and the state update is applied
unconditionally. -/
def Pay.nextStep (s : PayState) : PayState :=
  let steps := Pay.steps s
  let nextStep : Int :=
    min (jsIndexOf steps s.currentStep + 1) ((steps.length : Int) - 1)
  if jsStrictEq (.str s.currentStep) (.num nextStep) then s
  else
    { s with
      currentStep := steps.getD nextStep.toNat ""
      previousStep := some s.currentStep }

/-- The external command issued by the submit handler: an on-chain send or a
Lightning invoice payment. -/
inductive PayCommand where
  | sendCoins (value : ℚ) (addr : String) (currency : String)
      (satPerByte : Option Int)
  | payInvoice (payReq : String) (feeLimit : Option Int)
  deriving DecidableEq

/-- `onSubmit` (Pay.js lines 188-204): on the summary step, dispatch
`sendCoins` (on-chain) or `payInvoice` (Lightning) built from the submitted
values and the props; on any other step, advance to the next step instead.
Returns the dispatched command, if any, together with the updated state. -/
def Pay.onSubmit (p : PayProps) (values : FormValues) (s : PayState) :
    Option PayCommand × PayState :=
  let feeLimit := getMaxFee p.routes
  if s.currentStep == "summary" then
    if s.isOnchain then
      (some (.sendCoins values.amountCrypto values.payReq p.cryptoCurrency
          p.onchainFees.fastestFee), s)
    else (some (.payInvoice values.payReq feeLimit), s)
  else (none, Pay.nextStep s)

/-- Truthiness of an optional string prop, as JavaScript sees it: absent
(`null`/`undefined`) and the empty string are falsy. -/
def isTruthyOptStr : Option String → Bool
  | none => false
  | some s => !(s == "")

/-- The side effects `componentDidUpdate` can issue through the form API and
the callback props. -/
inductive UpdateEffect where
  | resetForm
  | setPayReqValue (v : String)
  | runHandlePayReqChange
  | clearTouched
  | submitForm
  | queryRoutes (payeeNodeKey : String) (satoshis : Int)
  deriving DecidableEq

/-- `componentDidUpdate` (Pay.js lines 148-182), as the ordered list of side
effects it issues for the given previous/current props and state: reset and
reprocess the form when `initialPayReq` changed to a truthy value; clear the
touched flags when the step changed back to `address`; submit the form when
`isOnchain` became set; submit the form and, when an invoice is present,
query routes with its payee node key and satoshi amount when `isLn` became
set. -/
def Pay.componentDidUpdate (prevProps : PayProps) (prevState : PayState)
    (p : PayProps) (s : PayState) : List UpdateEffect :=
  (if isTruthyOptStr p.initialPayReq && !(p.initialPayReq == prevProps.initialPayReq) then
    [.resetForm, .setPayReqValue (p.initialPayReq.getD ""), .runHandlePayReqChange]
  else []) ++
  (if !(s.currentStep == prevState.currentStep) then
    (if s.currentStep == "address" then [.clearTouched] else [])
  else []) ++
  (if s.isOnchain && !(s.isOnchain == prevState.isOnchain) then [.submitForm]
  else []) ++
  (if s.isLn && !(s.isLn == prevState.isLn) then
    .submitForm ::
      (match s.invoice with
      | some invoice => [.queryRoutes invoice.payeeNodeKey invoice.satoshis]
      | none => [])
  else [])

/-- The route check of the render body (Pay.js lines 642-649): `hasRoute`
starts true and is cleared exactly when the payment is Lightning, the summary
step is active, and the fee range over the routes has a null bound. -/
def Pay.hasRoute (p : PayProps) (s : PayState) : Bool :=
  let hasRoute := true
  if s.isLn && (s.currentStep == "summary") then
    let fr := getFeeRange p.routes
    if fr.min == none || fr.max == none then false else hasRoute
  else hasRoute

/-- Whether the "no route" error message is rendered (Pay.js lines 699-705):
summary step, routes not currently being queried, and no route found. -/
def Pay.noRouteMessageShown (p : PayProps) (s : PayState) : Bool :=
  (s.currentStep == "summary") && !p.isQueryingRoutes && !(Pay.hasRoute p s)

/-- The funds check of the render body (Pay.js lines 651-658).  `conv` is the
external `convert` utility (lib/utils/btc): `conv from to amount` converts
`amount` between the named units. -/
def Pay.hasEnoughFunds (conv : String → String → ℚ → ℚ) (p : PayProps)
    (fs : FormState) (s : PayState) : Bool :=
  match s.isLn, s.invoice with
  | true, some invoice => decide (invoice.satoshis ≤ p.channelBalance)
  | _, _ =>
      if s.isOnchain then
        decide (conv p.cryptoCurrency "sats" fs.values.amountCrypto ≤ (p.walletBalance : ℚ))
      else true

/-- Whether the "insufficient funds" error message is rendered (Pay.js lines
707-712): summary step and not enough funds. -/
def Pay.notEnoughFundsMessageShown (conv : String → String → ℚ → ℚ)
    (p : PayProps) (fs : FormState) (s : PayState) : Bool :=
  (s.currentStep == "summary") && !(Pay.hasEnoughFunds conv p fs s)

/-- The `disabled` flag passed to the form buttons (Pay.js lines 714-720). -/
def Pay.payButtonsDisabled (conv : String → String → ℚ → ℚ) (p : PayProps)
    (fs : FormState) (s : PayState) : Bool :=
  fs.pristine || fs.invalid || p.isProcessing ||
    ((s.currentStep == "summary") &&
      (!(Pay.hasRoute p s) || !(Pay.hasEnoughFunds conv p fs s)))

/-- The `ticker` prop of `Wallet`: the selected display currency (possibly
absent or empty before the ticker initialises) and the selected fiat
ticker. -/
structure Ticker where
  currency : Option String
  fiatTicker : String
  deriving DecidableEq

/-- The `balance` prop of `Wallet`.  The source applies `parseInt`/`parseFloat`
to the two fields; they are satoshi amounts, modelled as integers, on which
both parses are the identity. -/
structure Balance where
  walletBalance : Int
  channelBalance : Int
  deriving DecidableEq

/-- The `info.data` prop of `Wallet`: only the testnet flag is read. -/
structure InfoData where
  testnet : Bool
  deriving DecidableEq

/-- The props of `Wallet` that the modelled output depends on.
`currentTicker` maps a fiat ticker to the rate object consumed by
`satoshisToFiat`, modelled as a rational rate. -/
structure WalletInputs where
  balance : Balance
  info : InfoData
  ticker : Ticker
  currentTicker : String → ℚ

/-- What the `Wallet` component renders: the testnet badge, the combined
crypto balance figure with its display currency, and the optional
approximate-fiat line with its fiat ticker.  (The receive / pay / request
buttons carry no data and are always present when the component renders at
all, so they need no field.) -/
structure WalletView where
  testnetBadge : Bool
  cryptoValue : ℚ
  valueCurrency : String
  fiatLine : Option ℚ
  fiatTicker : String
  deriving DecidableEq

/-- `Wallet` (Wallet.js lines 12-98).  `stf` is the external
`btc.satoshisToFiat` utility (lib/utils/btc, outside the provided tree),
taking a satoshi amount and the rate from `currentTicker`.  When
`ticker.currency` is falsy the component returns null; otherwise it renders
the summed balance as the crypto figure and, when the fiat amount is truthy
(non-zero), the fiat line. -/
def Wallet (stf : Int → ℚ → ℚ) (inp : WalletInputs) : Option WalletView :=
  if !(isTruthyOptStr inp.ticker.currency) then none
  else
    let fiatAmount :=
      stf (inp.balance.walletBalance + inp.balance.channelBalance)
        (inp.currentTicker inp.ticker.fiatTicker)
    some
      { testnetBadge := inp.info.testnet
        cryptoValue :=
          (inp.balance.walletBalance : ℚ) + (inp.balance.channelBalance : ℚ)
        valueCurrency := inp.ticker.currency.getD ""
        fiatLine := if fiatAmount == 0 then none else some fiatAmount
        fiatTicker := inp.ticker.fiatTicker }

/-! ### Helper lemmas about the step machinery -/

/-- Strict equality between a string and a number is always false. -/
lemma jsStrictEq_str_num (a : String) (n : Int) :
    jsStrictEq (.str a) (.num n) = false := rfl

/-- `jsIndexOf` either misses (returning `-1`) or returns an in-bounds index
at which the list holds the sought element. -/
lemma jsIndexOf_spec (l : List String) (x : String) :
    jsIndexOf l x = -1 ∨
      (0 ≤ jsIndexOf l x ∧ jsIndexOf l x < (l.length : Int) ∧
        l.getD (jsIndexOf l x).toNat "" = x) := by
  induction l with
  | nil => exact Or.inl rfl
  | cons a rest ih =>
      by_cases h : a == x
      · right
        refine ⟨by simp [jsIndexOf, h], by simp [jsIndexOf, h], ?_⟩
        simp only [jsIndexOf, h, if_true, Int.toNat_zero, List.getD_cons_zero]
        exact eq_of_beq h
      · rcases ih with h1 | ⟨h1, h2, h3⟩
        · left
          simp [jsIndexOf, h, h1]
        · right
          have hne : (jsIndexOf rest x == -1) = false := by
            simp only [beq_eq_false_iff_ne, ne_eq]
            omega
          have hval : jsIndexOf (a :: rest) x = jsIndexOf rest x + 1 := by
            simp [jsIndexOf, h, hne]
          refine ⟨by omega, ?_, ?_⟩
          · rw [hval]
            simp only [List.length_cons]
            push_cast
            omega
          · rw [hval]
            have ht : (jsIndexOf rest x + 1).toNat = (jsIndexOf rest x).toNat + 1 := by
              omega
            rw [ht, List.getD_cons_succ]
            exact h3

/-- An in-bounds `getD` yields a member of the list. -/
lemma getD_mem_of_lt (l : List String) (n : Nat) (h : n < l.length) :
    l.getD n "" ∈ l := by
  rw [List.getD_eq_getElem _ _ h]
  exact List.getElem_mem h

/-- The enabled step list always has the shape given by the flags. -/
lemma steps_cases (s : PayState) :
    (s.isLn = true ∧ Pay.steps s = ["address", "summary"]) ∨
      (s.isLn = false ∧ s.isOnchain = true ∧
        Pay.steps s = ["address", "amount", "summary"]) ∨
      (s.isLn = false ∧ s.isOnchain = false ∧ Pay.steps s = ["address"]) := by
  cases hLn : s.isLn <;> cases hOn : s.isOnchain <;> simp [Pay.steps, hLn, hOn]

/-- The enabled step list is never empty. -/
lemma steps_length_pos (s : PayState) : 0 < (Pay.steps s).length := by
  rcases steps_cases s with ⟨_, h⟩ | ⟨_, _, h⟩ | ⟨_, _, h⟩ <;> simp [h]

/-- Every enabled step is one of the three step names. -/
lemma steps_subset (s : PayState) (x : String) (hx : x ∈ Pay.steps s) :
    x ∈ (["address", "amount", "summary"] : List String) := by
  rcases steps_cases s with ⟨_, h⟩ | ⟨_, _, h⟩ | ⟨_, _, h⟩ <;>
    rw [h] at hx <;>
    simp only [List.mem_cons, List.not_mem_nil, or_false] at hx ⊢ <;> tauto

/-- `nextStep` always lands on an enabled step. -/
lemma nextStep_mem (s : PayState) :
    (Pay.nextStep s).currentStep ∈ Pay.steps s := by
  have hlen := steps_length_pos s
  simp only [Pay.nextStep, jsStrictEq_str_num, Bool.false_eq_true, if_false]
  apply getD_mem_of_lt
  rcases jsIndexOf_spec (Pay.steps s) s.currentStep with h | ⟨h1, h2, _⟩
  · rw [h]
    omega
  · omega

/-- `previousStep` always lands on an enabled step. -/
lemma previousStep_mem (s : PayState) :
    (Pay.previousStep s).currentStep ∈ Pay.steps s := by
  have hlen := steps_length_pos s
  simp only [Pay.previousStep, jsStrictEq_str_num, Bool.false_eq_true, if_false]
  apply getD_mem_of_lt
  rcases jsIndexOf_spec (Pay.steps s) s.currentStep with h | ⟨h1, h2, _⟩
  · rw [h]
    omega
  · omega

/-- `previousStep` unconditionally records the old step in the
`previousStep` state field. -/
lemma previousStep_records (s : PayState) :
    (Pay.previousStep s).previousStep = some s.currentStep := by
  simp [Pay.previousStep, jsStrictEq_str_num]

/-- `nextStep` unconditionally records the old step in the `previousStep`
state field. -/
lemma nextStep_records (s : PayState) :
    (Pay.nextStep s).previousStep = some s.currentStep := by
  simp [Pay.nextStep, jsStrictEq_str_num]

/-- `nextStep` at the last enabled step leaves the current step unchanged. -/
lemma nextStep_last_fixed (s : PayState)
    (h : s.currentStep = (Pay.steps s).getLastD "") :
    (Pay.nextStep s).currentStep = s.currentStep := by
  rcases steps_cases s with ⟨hLn, hs⟩ | ⟨hLn, hOn, hs⟩ | ⟨hLn, hOn, hs⟩ <;>
    rw [hs] at h <;> simp at h <;>
    simp [Pay.nextStep, hs, h, jsIndexOf, jsStrictEq]

/-- `previousStep` at the first enabled step leaves the current step
unchanged. -/
lemma previousStep_head_fixed (s : PayState)
    (h : s.currentStep = (Pay.steps s).headD "") :
    (Pay.previousStep s).currentStep = s.currentStep := by
  rcases steps_cases s with ⟨hLn, hs⟩ | ⟨hLn, hOn, hs⟩ | ⟨hLn, hOn, hs⟩ <;>
    rw [hs] at h <;> simp at h <;>
    simp [Pay.previousStep, hs, h, jsIndexOf, jsStrictEq]

/-! ### Sample closed inputs for witnesses and counterexamples -/

/-- A sample Lightning-classified state on the summary step. -/
def sampleLnState : PayState :=
  { currentStep := "summary"
    previousStep := some "address"
    isLn := true
    isOnchain := false
    invoice := some { payeeNodeKey := "nodeKeySample", satoshis := 1500 } }

/-- A sample on-chain-classified state on the summary step. -/
def sampleOnchainState : PayState :=
  { currentStep := "summary"
    previousStep := some "amount"
    isLn := false
    isOnchain := true
    invoice := none }

/-- Sample submitted form values. -/
def sampleFormValues : FormValues :=
  { payReq := "addrSample", amountCrypto := 2 }

/-- A sample form state: touched and valid. -/
def sampleFormState : FormState :=
  { values := sampleFormValues, pristine := false, invalid := false }

/-- Props while a route query is still in flight and no route is known. -/
def queryingProps : PayProps :=
  { sampleProps with isQueryingRoutes := true, routes := [] }

/-- A concrete stand-in for the external `convert` utility, used only to
evaluate theorems on closed inputs. -/
def sampleConvert : String → String → ℚ → ℚ := fun _ _ amount => amount

/-! ### Claims -/

/-- Claim C1, amended: after every completed run of `handlePayReqChange`
(whenever a recognised Lightning request also decodes, the handler does not
abort), at most one of the state flags `isLn` and `isOnchain` is set, and
exactly one is set precisely when the classifiers recognise the payReq as a
Lightning request or as an on-chain address; on a payReq recognised as
neither, both flags are left unset. -/
theorem claim_C1 (u : CryptoUtils) (p : PayProps) (payReq : String)
    (s : PayState)
    (hcomplete : u.isLn payReq p.chain p.network = true →
      (u.decodePayReq payReq).isSome = true) :
    ¬((Pay.handlePayReqChange u p payReq s).isLn = true ∧
        (Pay.handlePayReqChange u p payReq s).isOnchain = true) ∧
      (((Pay.handlePayReqChange u p payReq s).isLn = true ∨
          (Pay.handlePayReqChange u p payReq s).isOnchain = true) ↔
        (u.isLn payReq p.chain p.network = true ∨
          u.isOnchain payReq p.chain p.network = true)) := by
  by_cases hL : u.isLn payReq p.chain p.network = true
  · obtain ⟨inv, hinv⟩ := Option.isSome_iff_exists.mp (hcomplete hL)
    simp [Pay.handlePayReqChange, hL, hinv]
  · by_cases hO : u.isOnchain payReq p.chain p.network = true <;>
      simp [Pay.handlePayReqChange, hL, hO]

/-- Claim C1 witness: the amended statement evaluated on a decodable sample
Lightning request. -/
theorem claim_C1_witness :
    ¬((Pay.handlePayReqChange specCryptoUtils sampleProps "lnGoodInvoice"
          Pay.initialState).isLn = true ∧
        (Pay.handlePayReqChange specCryptoUtils sampleProps "lnGoodInvoice"
          Pay.initialState).isOnchain = true) ∧
      (((Pay.handlePayReqChange specCryptoUtils sampleProps "lnGoodInvoice"
            Pay.initialState).isLn = true ∨
          (Pay.handlePayReqChange specCryptoUtils sampleProps "lnGoodInvoice"
            Pay.initialState).isOnchain = true) ↔
        (specCryptoUtils.isLn "lnGoodInvoice" sampleProps.chain
            sampleProps.network = true ∨
          specCryptoUtils.isOnchain "lnGoodInvoice" sampleProps.chain
            sampleProps.network = true)) :=
  claim_C1 specCryptoUtils sampleProps "lnGoodInvoice" Pay.initialState
    (by decide)

/-- Claim C1 counterexample: on the empty payReq field — recognised neither
as a Lightning request nor as an on-chain address — the run completes (no
decode can abort it) and leaves both flags unset, refuting "exactly one of
isOnchain and isLn is set" for every payReq. -/
theorem claim_C1_counterexample :
    specCryptoUtils.isLn "" sampleProps.chain sampleProps.network = false ∧
      specCryptoUtils.isOnchain "" sampleProps.chain sampleProps.network
        = false ∧
      ¬(((Pay.handlePayReqChange specCryptoUtils sampleProps ""
              Pay.initialState).isLn = true ∧
            (Pay.handlePayReqChange specCryptoUtils sampleProps ""
              Pay.initialState).isOnchain = false) ∨
          ((Pay.handlePayReqChange specCryptoUtils sampleProps ""
              Pay.initialState).isOnchain = true ∧
            (Pay.handlePayReqChange specCryptoUtils sampleProps ""
              Pay.initialState).isLn = false)) := by
  decide

/-- Claim C5: when the payReq is recognised as a Lightning request but
decoding it throws, `handlePayReqChange` returns without applying any state
update: the whole state — in particular the `isLn`, `isOnchain` and
`invoice` fields — keeps exactly the values it had before the call. -/
theorem claim_C5 (u : CryptoUtils) (p : PayProps) (payReq : String)
    (s : PayState)
    (hln : u.isLn payReq p.chain p.network = true)
    (hdec : u.decodePayReq payReq = none) :
    Pay.handlePayReqChange u p payReq s = s ∧
      (Pay.handlePayReqChange u p payReq s).isLn = s.isLn ∧
      (Pay.handlePayReqChange u p payReq s).isOnchain = s.isOnchain ∧
      (Pay.handlePayReqChange u p payReq s).invoice = s.invoice := by
  simp [Pay.handlePayReqChange, hln, hdec]

/-- Claim C5 witness: the sample Lightning request that fails to decode
leaves a previously on-chain-classified state untouched. -/
theorem claim_C5_witness :
    Pay.handlePayReqChange specCryptoUtils sampleProps "lnBadInvoice"
        sampleOnchainState = sampleOnchainState ∧
      (Pay.handlePayReqChange specCryptoUtils sampleProps "lnBadInvoice"
        sampleOnchainState).isLn = sampleOnchainState.isLn ∧
      (Pay.handlePayReqChange specCryptoUtils sampleProps "lnBadInvoice"
        sampleOnchainState).isOnchain = sampleOnchainState.isOnchain ∧
      (Pay.handlePayReqChange specCryptoUtils sampleProps "lnBadInvoice"
        sampleOnchainState).invoice = sampleOnchainState.invoice :=
  claim_C5 specCryptoUtils sampleProps "lnBadInvoice" sampleOnchainState
    (by decide) (by decide)

/-- Claim C2: on the summary step, an on-chain submission dispatches
`sendCoins` with the entered crypto amount as value, the payReq field as
address, the selected cryptocurrency and the fastest onchain fee as
satPerByte; a non-on-chain submission dispatches `payInvoice` with the
payReq field and `getMaxFee` of the routes list as fee limit; off the
summary step nothing is dispatched and the form advances to the next
step. -/
theorem claim_C2 (p : PayProps) (values : FormValues) (s : PayState) :
    (s.currentStep = "summary" → s.isOnchain = true →
      Pay.onSubmit p values s =
        (some (.sendCoins values.amountCrypto values.payReq p.cryptoCurrency
          p.onchainFees.fastestFee), s)) ∧
      (s.currentStep = "summary" → s.isOnchain = false →
        Pay.onSubmit p values s =
          (some (.payInvoice values.payReq (getMaxFee p.routes)), s)) ∧
      (s.currentStep ≠ "summary" →
        Pay.onSubmit p values s = (none, Pay.nextStep s)) := by
  refine ⟨fun h1 h2 => ?_, fun h1 h2 => ?_, fun h1 => ?_⟩
  · simp [Pay.onSubmit, h1, h2]
  · simp [Pay.onSubmit, h1, h2]
  · simp [Pay.onSubmit, h1]

/-- Claim C2 witness: the three submission behaviours evaluated on closed
inputs (on-chain summary, Lightning summary, and the initial address
step). -/
theorem claim_C2_witness :
    Pay.onSubmit sampleProps sampleFormValues sampleOnchainState =
        (some (.sendCoins sampleFormValues.amountCrypto
          sampleFormValues.payReq sampleProps.cryptoCurrency
          sampleProps.onchainFees.fastestFee), sampleOnchainState) ∧
      Pay.onSubmit sampleProps sampleFormValues sampleLnState =
        (some (.payInvoice sampleFormValues.payReq
          (getMaxFee sampleProps.routes)), sampleLnState) ∧
      Pay.onSubmit sampleProps sampleFormValues Pay.initialState =
        (none, Pay.nextStep Pay.initialState) :=
  ⟨(claim_C2 sampleProps sampleFormValues sampleOnchainState).1 rfl rfl,
    (claim_C2 sampleProps sampleFormValues sampleLnState).2.1 rfl rfl,
    (claim_C2 sampleProps sampleFormValues Pay.initialState).2.2 (by decide)⟩

/-- Claim C3: the enabled step list is `["address", "summary"]` when `isLn`
is set, `["address", "amount", "summary"]` when `isOnchain` (and not `isLn`)
is set, and `["address"]` when neither is set; every `nextStep` and
`previousStep` call lands on a member of that list; at the last (resp.
first) enabled step, `nextStep` (resp. `previousStep`) leaves the current
step unchanged; hence the current step after any transition is one of
`address`, `amount`, `summary`. -/
theorem claim_C3 (s : PayState) :
    (s.isLn = true → Pay.steps s = ["address", "summary"]) ∧
      (s.isLn = false → s.isOnchain = true →
        Pay.steps s = ["address", "amount", "summary"]) ∧
      (s.isLn = false → s.isOnchain = false → Pay.steps s = ["address"]) ∧
      (Pay.nextStep s).currentStep ∈ Pay.steps s ∧
      (Pay.previousStep s).currentStep ∈ Pay.steps s ∧
      (s.currentStep = (Pay.steps s).getLastD "" →
        (Pay.nextStep s).currentStep = s.currentStep) ∧
      (s.currentStep = (Pay.steps s).headD "" →
        (Pay.previousStep s).currentStep = s.currentStep) ∧
      (Pay.nextStep s).currentStep ∈
        (["address", "amount", "summary"] : List String) ∧
      (Pay.previousStep s).currentStep ∈
        (["address", "amount", "summary"] : List String) := by
  refine ⟨fun h => by simp [Pay.steps, h], fun h1 h2 => by simp [Pay.steps, h1, h2],
    fun h1 h2 => by simp [Pay.steps, h1, h2], nextStep_mem s, previousStep_mem s,
    nextStep_last_fixed s, previousStep_head_fixed s,
    steps_subset s _ (nextStep_mem s), steps_subset s _ (previousStep_mem s)⟩

/-- Claim C3 witness: the step list and transition invariants evaluated on
closed Lightning and initial states. -/
theorem claim_C3_witness :
    Pay.steps sampleLnState = ["address", "summary"] ∧
      Pay.steps sampleOnchainState = ["address", "amount", "summary"] ∧
      Pay.steps Pay.initialState = ["address"] ∧
      (Pay.nextStep sampleLnState).currentStep = sampleLnState.currentStep ∧
      (Pay.previousStep Pay.initialState).currentStep =
        Pay.initialState.currentStep ∧
      (Pay.nextStep sampleLnState).currentStep ∈ Pay.steps sampleLnState :=
  ⟨(claim_C3 sampleLnState).1 rfl,
    (claim_C3 sampleOnchainState).2.1 rfl rfl,
    (claim_C3 Pay.initialState).2.2.1 rfl rfl,
    (claim_C3 sampleLnState).2.2.2.2.2.1 (by decide),
    (claim_C3 Pay.initialState).2.2.2.2.2.2.1 (by decide),
    (claim_C3 sampleLnState).2.2.2.1⟩

/-- Claim C8: the guard of `previousStep` / `nextStep` strictly compares the
string `currentStep` with a numeric step index, so it always holds and the
state update is applied unconditionally; in particular, at the first (resp.
last) enabled step the current step is left unchanged while the
`previousStep` state field is still overwritten with the current step. -/
theorem claim_C8 (s : PayState) (n : Int) :
    jsStrictEq (.str s.currentStep) (.num n) = false ∧
      (Pay.previousStep s).previousStep = some s.currentStep ∧
      (Pay.nextStep s).previousStep = some s.currentStep ∧
      (s.currentStep = (Pay.steps s).headD "" →
        (Pay.previousStep s).currentStep = s.currentStep ∧
          (Pay.previousStep s).previousStep = some s.currentStep) ∧
      (s.currentStep = (Pay.steps s).getLastD "" →
        (Pay.nextStep s).currentStep = s.currentStep ∧
          (Pay.nextStep s).previousStep = some s.currentStep) :=
  ⟨jsStrictEq_str_num s.currentStep n, previousStep_records s,
    nextStep_records s,
    fun h => ⟨previousStep_head_fixed s h, previousStep_records s⟩,
    fun h => ⟨nextStep_last_fixed s h, nextStep_records s⟩⟩

/-- Claim C8 witness: calling `previousStep` on the initial state (first
enabled step) keeps the current step but overwrites the `previousStep`
field. -/
theorem claim_C8_witness :
    jsStrictEq (.str Pay.initialState.currentStep) (.num 0) = false ∧
      (Pay.previousStep Pay.initialState).currentStep =
        Pay.initialState.currentStep ∧
      (Pay.previousStep Pay.initialState).previousStep = some "address" :=
  ⟨(claim_C8 Pay.initialState 0).1,
    ((claim_C8 Pay.initialState 0).2.2.2.1 (by decide)).1,
    ((claim_C8 Pay.initialState 0).2.2.2.1 (by decide)).2⟩

/-- Claim C4: in every update in which `isLn` transitions from unset to set
while a decoded invoice is present in state, `componentDidUpdate` submits
the form and issues exactly one route query, carrying the invoice's
`payeeNodeKey` and its `satoshis` amount. -/
theorem claim_C4 (prevProps : PayProps) (prevState : PayState)
    (p : PayProps) (s : PayState) (inv : Invoice)
    (hLn : s.isLn = true) (hprev : prevState.isLn = false)
    (hinv : s.invoice = some inv) :
    UpdateEffect.submitForm ∈ Pay.componentDidUpdate prevProps prevState p s ∧
      (Pay.componentDidUpdate prevProps prevState p s).filter
          (fun e => match e with | .queryRoutes _ _ => true | _ => false) =
        [.queryRoutes inv.payeeNodeKey inv.satoshis] := by
  unfold Pay.componentDidUpdate
  rw [hLn, hprev, hinv]
  constructor
  · simp
  · simp only [List.filter_append]
    split_ifs <;> simp_all [List.filter]

/-- Claim C4 witness: the Lightning transition evaluated on a closed update
(initial state to the sample Lightning state). -/
theorem claim_C4_witness :
    UpdateEffect.submitForm ∈
        Pay.componentDidUpdate sampleProps Pay.initialState sampleProps
          sampleLnState ∧
      (Pay.componentDidUpdate sampleProps Pay.initialState sampleProps
            sampleLnState).filter
          (fun e => match e with | .queryRoutes _ _ => true | _ => false) =
        [.queryRoutes "nodeKeySample" 1500] :=
  claim_C4 sampleProps Pay.initialState sampleProps sampleLnState
    { payeeNodeKey := "nodeKeySample", satoshis := 1500 } rfl rfl rfl

/-- The route check is cleared exactly on a Lightning payment at the summary
step whose fee range has a null bound. -/
lemma hasRoute_false_iff (p : PayProps) (s : PayState) :
    Pay.hasRoute p s = false ↔
      (s.currentStep = "summary" ∧ s.isLn = true ∧
        ((getFeeRange p.routes).min = none ∨
          (getFeeRange p.routes).max = none)) := by
  unfold Pay.hasRoute
  cases hLn : s.isLn <;> by_cases hc : s.currentStep = "summary"
  · simp [hLn, hc]
  · simp [hLn, hc]
  · cases hm : (getFeeRange p.routes).min <;>
      cases hx : (getFeeRange p.routes).max <;> simp [hLn, hc, hm, hx]
  · simp [hLn, hc]

/-- Claim C6, amended: the "no route" message is rendered exactly when the
current step is `summary`, `isLn` is set, routes are not being queried, and
`getFeeRange` of the routes yields a null minimum or maximum; in every other
state the message is absent, and `hasRoute` is false exactly when the
current step is `summary`, `isLn` is set, and `getFeeRange` yields a null
bound — so `hasRoute` is true for any on-chain payment, but it can be false
with the message suppressed while routes are being queried. -/
theorem claim_C6 (p : PayProps) (s : PayState) :
    (Pay.noRouteMessageShown p s = true ↔
      (s.currentStep = "summary" ∧ s.isLn = true ∧
        p.isQueryingRoutes = false ∧
        ((getFeeRange p.routes).min = none ∨
          (getFeeRange p.routes).max = none))) ∧
      (Pay.hasRoute p s = false ↔
        (s.currentStep = "summary" ∧ s.isLn = true ∧
          ((getFeeRange p.routes).min = none ∨
            (getFeeRange p.routes).max = none))) := by
  refine ⟨?_, hasRoute_false_iff p s⟩
  unfold Pay.noRouteMessageShown
  by_cases hc : s.currentStep = "summary" <;>
    cases hq : p.isQueryingRoutes <;>
    simp [hc, hq, Bool.not_eq_true, hasRoute_false_iff, and_assoc]

/-- Claim C6 counterexample: while routes are being queried on a Lightning
summary with an empty routes list, the message is (correctly) absent but
`hasRoute` is false, refuting the claim's "in every other state the message
is absent and hasRoute is true". -/
theorem claim_C6_counterexample :
    ¬((Pay.noRouteMessageShown queryingProps sampleLnState = true ↔
        (sampleLnState.currentStep = "summary" ∧
          sampleLnState.isLn = true ∧
          queryingProps.isQueryingRoutes = false ∧
          ((getFeeRange queryingProps.routes).min = none ∨
            (getFeeRange queryingProps.routes).max = none))) ∧
      (¬(sampleLnState.currentStep = "summary" ∧
          sampleLnState.isLn = true ∧
          queryingProps.isQueryingRoutes = false ∧
          ((getFeeRange queryingProps.routes).min = none ∨
            (getFeeRange queryingProps.routes).max = none)) →
        Pay.noRouteMessageShown queryingProps sampleLnState = false ∧
          Pay.hasRoute queryingProps sampleLnState = true)) := by
  decide

/-- Claim C7: `hasEnoughFunds` compares the invoice's satoshis with the
channel balance on a Lightning payment with an invoice, the converted crypto
amount with the wallet balance on an on-chain payment, and is true
otherwise; the "insufficient funds" message is rendered exactly on the
summary step with insufficient funds; and on the summary step the submit
buttons are disabled whenever funds or a route are missing. -/
theorem claim_C7 (conv : String → String → ℚ → ℚ) (p : PayProps)
    (fs : FormState) (s : PayState) (inv : Invoice) :
    (s.isLn = true → s.invoice = some inv →
      Pay.hasEnoughFunds conv p fs s =
        decide (inv.satoshis ≤ p.channelBalance)) ∧
      ((s.isLn = false ∨ s.invoice = none) → s.isOnchain = true →
        Pay.hasEnoughFunds conv p fs s =
          decide (conv p.cryptoCurrency "sats" fs.values.amountCrypto ≤
            (p.walletBalance : ℚ))) ∧
      ((s.isLn = false ∨ s.invoice = none) → s.isOnchain = false →
        Pay.hasEnoughFunds conv p fs s = true) ∧
      (Pay.notEnoughFundsMessageShown conv p fs s = true ↔
        (s.currentStep = "summary" ∧ Pay.hasEnoughFunds conv p fs s = false)) ∧
      (s.currentStep = "summary" →
        (Pay.hasEnoughFunds conv p fs s = false ∨ Pay.hasRoute p s = false) →
        Pay.payButtonsDisabled conv p fs s = true) := by
  refine ⟨fun h1 h2 => ?_, fun h1 h2 => ?_, fun h1 h2 => ?_, ?_, fun h1 h2 => ?_⟩
  · simp [Pay.hasEnoughFunds, h1, h2]
  · rcases h1 with h1 | h1 <;>
      · unfold Pay.hasEnoughFunds
        cases hi : s.invoice <;> cases hLn : s.isLn <;>
          simp_all [Pay.hasEnoughFunds, h2]
  · rcases h1 with h1 | h1 <;>
      · unfold Pay.hasEnoughFunds
        cases hi : s.invoice <;> cases hLn : s.isLn <;>
          simp_all [Pay.hasEnoughFunds, h2]
  · unfold Pay.notEnoughFundsMessageShown
    by_cases hc : s.currentStep = "summary" <;>
      cases hf : Pay.hasEnoughFunds conv p fs s <;> simp [hc, hf]
  · unfold Pay.payButtonsDisabled
    rcases h2 with h2 | h2 <;> simp [h1, h2]

/-- Props with a channel balance too small to cover the sample invoice. -/
def poorProps : PayProps := { sampleProps with channelBalance := 10 }

/-- Claim C7 witness: the funds check, the message condition and the button
disabling evaluated on closed Lightning and on-chain inputs, including an
underfunded channel. -/
theorem claim_C7_witness :
    Pay.hasEnoughFunds sampleConvert sampleProps sampleFormState sampleLnState =
        decide ((1500 : Int) ≤ sampleProps.channelBalance) ∧
      Pay.hasEnoughFunds sampleConvert sampleProps sampleFormState
          sampleOnchainState =
        decide (sampleConvert sampleProps.cryptoCurrency "sats"
          sampleFormState.values.amountCrypto ≤
            (sampleProps.walletBalance : ℚ)) ∧
      Pay.hasEnoughFunds sampleConvert sampleProps sampleFormState
          Pay.initialState = true ∧
      (Pay.notEnoughFundsMessageShown sampleConvert poorProps sampleFormState
          sampleLnState = true ↔
        (sampleLnState.currentStep = "summary" ∧
          Pay.hasEnoughFunds sampleConvert poorProps sampleFormState
            sampleLnState = false)) ∧
      Pay.payButtonsDisabled sampleConvert poorProps sampleFormState
        sampleLnState = true :=
  ⟨(claim_C7 sampleConvert sampleProps sampleFormState sampleLnState
      { payeeNodeKey := "nodeKeySample", satoshis := 1500 }).1 rfl rfl,
    (claim_C7 sampleConvert sampleProps sampleFormState sampleOnchainState
      { payeeNodeKey := "nodeKeySample", satoshis := 1500 }).2.1
      (Or.inl rfl) rfl,
    (claim_C7 sampleConvert sampleProps sampleFormState Pay.initialState
      { payeeNodeKey := "nodeKeySample", satoshis := 1500 }).2.2.1
      (Or.inl rfl) rfl,
    (claim_C7 sampleConvert poorProps sampleFormState sampleLnState
      { payeeNodeKey := "nodeKeySample", satoshis := 1500 }).2.2.2.1,
    (claim_C7 sampleConvert poorProps sampleFormState sampleLnState
      { payeeNodeKey := "nodeKeySample", satoshis := 1500 }).2.2.2.2 rfl
      (Or.inl (by decide))⟩

/-- Claim C9: whenever the `ticker.currency` prop is falsy, the `Wallet`
component returns null and renders nothing — no balance, no fiat amount and
no buttons. -/
theorem claim_C9 (stf : Int → ℚ → ℚ) (inp : WalletInputs)
    (h : isTruthyOptStr inp.ticker.currency = false) :
    Wallet stf inp = none := by
  simp [Wallet, h]

/-- A concrete stand-in for the external `satoshisToFiat` utility, used only
to evaluate theorems on closed inputs: amount in satoshis times the rate
over 10^8. -/
def sampleSatoshisToFiat : Int → ℚ → ℚ :=
  fun sats rate => (sats : ℚ) * rate / 100000000

/-- Sample fiat rates keyed by fiat ticker. -/
def sampleRates : String → ℚ := fun _ => 6500

/-- Wallet inputs before the ticker has initialised: no currency yet. -/
def noCurrencyInputs : WalletInputs :=
  { balance := { walletBalance := 150000, channelBalance := 50000 }
    info := { testnet := true }
    ticker := { currency := none, fiatTicker := "USD" }
    currentTicker := sampleRates }

/-- Wallet inputs with an initialised ticker. -/
def sampleWalletInputs : WalletInputs :=
  { noCurrencyInputs with
    ticker := { currency := some "btc", fiatTicker := "USD" } }

/-- Claim C9 witness: the component renders nothing on inputs whose ticker
has no currency. -/
theorem claim_C9_witness :
    Wallet sampleSatoshisToFiat noCurrencyInputs = none :=
  claim_C9 sampleSatoshisToFiat noCurrencyInputs (by decide)

/-- Claim C10: whenever the dashboard renders, the crypto figure shown is
the sum of the wallet and channel balances, the fiat figure is
`satoshisToFiat` applied to that integer sum and the ticker rate for the
selected fiat currency, and the fiat line is rendered only when that fiat
amount is non-zero. -/
theorem claim_C10 (stf : Int → ℚ → ℚ) (inp : WalletInputs)
    (h : isTruthyOptStr inp.ticker.currency = true) :
    ∃ v, Wallet stf inp = some v ∧
      v.cryptoValue =
        (inp.balance.walletBalance : ℚ) + (inp.balance.channelBalance : ℚ) ∧
      v.fiatLine =
        (if stf (inp.balance.walletBalance + inp.balance.channelBalance)
            (inp.currentTicker inp.ticker.fiatTicker) == 0 then none
          else some (stf (inp.balance.walletBalance + inp.balance.channelBalance)
            (inp.currentTicker inp.ticker.fiatTicker))) ∧
      (∀ x, v.fiatLine = some x → ¬x = 0) := by
  have hw : Wallet stf inp = some
      { testnetBadge := inp.info.testnet
        cryptoValue :=
          (inp.balance.walletBalance : ℚ) + (inp.balance.channelBalance : ℚ)
        valueCurrency := inp.ticker.currency.getD ""
        fiatLine :=
          if stf (inp.balance.walletBalance + inp.balance.channelBalance)
              (inp.currentTicker inp.ticker.fiatTicker) == 0 then none
            else some (stf
              (inp.balance.walletBalance + inp.balance.channelBalance)
              (inp.currentTicker inp.ticker.fiatTicker))
        fiatTicker := inp.ticker.fiatTicker } := by
    unfold Wallet
    rw [h]
    rfl
  refine ⟨_, hw, rfl, rfl, fun x hx => ?_⟩
  revert hx
  cases h0 : (stf (inp.balance.walletBalance + inp.balance.channelBalance)
      (inp.currentTicker inp.ticker.fiatTicker) == 0) <;>
    simp only [if_true, if_false, Bool.false_eq_true]
  · intro hx
    cases hx
    intro hc
    rw [hc] at h0
    simp at h0
  · intro hx
    cases hx

/-- Claim C10 witness: the combined balance and fiat line evaluated on
closed inputs. -/
theorem claim_C10_witness :
    ∃ v, Wallet sampleSatoshisToFiat sampleWalletInputs = some v ∧
      v.cryptoValue =
        (sampleWalletInputs.balance.walletBalance : ℚ) +
          (sampleWalletInputs.balance.channelBalance : ℚ) ∧
      v.fiatLine =
        (if sampleSatoshisToFiat
            (sampleWalletInputs.balance.walletBalance +
              sampleWalletInputs.balance.channelBalance)
            (sampleWalletInputs.currentTicker
              sampleWalletInputs.ticker.fiatTicker) == 0 then none
          else some (sampleSatoshisToFiat
            (sampleWalletInputs.balance.walletBalance +
              sampleWalletInputs.balance.channelBalance)
            (sampleWalletInputs.currentTicker
              sampleWalletInputs.ticker.fiatTicker))) ∧
      (∀ x, v.fiatLine = some x → ¬x = 0) :=
  claim_C10 sampleSatoshisToFiat sampleWalletInputs (by decide)

end ZapDesktop
